import Mathlib

/- Shallow embedding of the response-normalization, per-sport parser dispatch and
   cache-by-derived-key mechanism of the sports MCP server
   (src/nfl_mcp_server/server.py together with src/nfl_mcp_server/sportsclasses.py).

   Python JSON values are modelled by the mutual inductive Json below; Python None
   is Json.null (dict.get of an absent key returns None).  Raised Python faults
   (AttributeError from None.get, TypeError from bad concatenation, iteration or
   an unhashable dict key) are modelled by Except.error.  Each resource class of
   the server owns one cache dict; a cache is an association list whose newest
   binding shadows older ones, which matches dict assignment for lookups. -/

mutual
inductive Json where
  | null : Json
  | bool (b : Bool) : Json
  | num (q : Rat) : Json
  | str (s : String) : Json
  | arr (elems : JsonList) : Json
  | obj (fields : JsonFields) : Json
  deriving DecidableEq, Repr
inductive JsonList where
  | nil : JsonList
  | cons (hd : Json) (tl : JsonList) : JsonList
  deriving DecidableEq, Repr
inductive JsonFields where
  | nil : JsonFields
  | cons (key : String) (val : Json) (tl : JsonFields) : JsonFields
  deriving DecidableEq, Repr
end

namespace JsonList

def toList : JsonList → List Json
  | .nil => []
  | .cons x xs => x :: toList xs

def ofList : List Json → JsonList
  | [] => .nil
  | x :: xs => .cons x (ofList xs)

def isNil : JsonList → Bool
  | .nil => true
  | .cons _ _ => false

def append : JsonList → JsonList → JsonList
  | .nil, ys => ys
  | .cons x xs, ys => .cons x (append xs ys)

end JsonList

namespace JsonFields

def lookup : JsonFields → String → Option Json
  | .nil, _ => none
  | .cons k v rest, key => if key = k then some v else lookup rest key

def ofList : List (String × Json) → JsonFields
  | [] => .nil
  | (k, v) :: rest => .cons k v (ofList rest)

def isNil : JsonFields → Bool
  | .nil => true
  | .cons _ _ _ => false

end JsonFields

/-- jobj builds a Json object literal from a list of key/value pairs. -/
def jobj (l : List (String × Json)) : Json := .obj (JsonFields.ofList l)

/-- jarr builds a Json array literal from a list of values. -/
def jarr (l : List Json) : Json := .arr (JsonList.ofList l)

/-- PyErr models the Python faults the parsers can raise: AttributeError
    (attribute access on None or another non-dict, e.g. None.get) and TypeError
    (bad operand types for +, iterating a non-iterable, unhashable dict key;
    non-list iterables such as strings also end in a per-element fault in the
    source and are collapsed into this constructor). -/
inductive PyErr where
  | attributeError : PyErr
  | typeError : PyErr
  deriving DecidableEq, Repr

/-- pyGet models the Python expression v.get(k): on a dict it returns the entry,
    or None (Json.null) when the key is absent; on any non-dict value, including
    None, attribute access raises AttributeError. -/
def pyGet (v : Json) (k : String) : Except PyErr Json :=
  match v with
  | .obj fields => .ok ((fields.lookup k).getD .null)
  | _ => .error .attributeError

/-- pyAdd models the Python + operator at the operand types that can reach the
    parsers' concatenation sites: str+str concatenates, numbers (and bools,
    which are ints in Python) add, list+list concatenates; every other
    combination, in particular anything involving None, raises TypeError. -/
def pyAdd : Json → Json → Except PyErr Json
  | .str a, .str b => .ok (.str (a ++ b))
  | .num a, .num b => .ok (.num (a + b))
  | .bool a, .bool b => .ok (.num ((cond a 1 0) + (cond b 1 0)))
  | .num a, .bool b => .ok (.num (a + cond b 1 0))
  | .bool a, .num b => .ok (.num ((cond a 1 0) + b))
  | .arr a, .arr b => .ok (.arr (a.append b))
  | _, _ => .error .typeError

/-- pyTruthy models Python truthiness: None, False, zero, and empty
    strings/lists/dicts are falsy, everything else is truthy. -/
def pyTruthy : Json → Bool
  | .null => false
  | .bool b => b
  | .num q => decide (q ≠ 0)
  | .str s => !s.isEmpty
  | .arr l => !l.isNil
  | .obj f => !f.isNil

/-- pyHashable is true for the values Python may use as dict keys; lists and
    dicts are unhashable and using one as a key raises TypeError. -/
def pyHashable : Json → Bool
  | .arr _ => false
  | .obj _ => false
  | _ => true

/-- pyIter models iterating a value in a for loop. Iterating a list yields its
    elements. Iterating any other value either raises TypeError at once
    (None/number/bool) or yields characters/keys on which the loop body's first
    attribute access raises; all those executions are collapsed into a
    TypeError here since no claim distinguishes the fault kind. -/
def pyIter : Json → Except PyErr (List Json)
  | .arr l => .ok l.toList
  | _ => .error .typeError

/-- Cache models the _cache dict each resource class owns; the newest binding
    is at the front and shadows older ones, as dict assignment does. -/
abbrev Cache := List (Json × Json)

def cacheFind : Cache → Json → Option Json
  | [], _ => none
  | (k, v) :: rest, key => if key = k then some v else cacheFind rest key

def cacheInsert (c : Cache) (k v : Json) : Cache := (k, v) :: c

/- Sport registry (sportsclasses.py). SupportedSports is a str-valued enum with
   the single member NFL = "nfl"; because a str enum member equals its string
   value, the sports dict answers lookups by the plain string, so the registry
   is modelled as a partial map on String. -/

inductive SupportedSports where
  | NFL : SupportedSports
  deriving DecidableEq, Repr

def SupportedSports.value : SupportedSports → String
  | .NFL => "nfl"

structure Sport where
  name : String
  langs : List String
  ver : String
  official : Bool
  deriving DecidableEq, Repr

def nflSport : Sport :=
  { name := "nfl"
    langs := ["br", "da", "de", "en", "es", "fi", "fr", "it", "ja", "nl", "no", "se", "tr"]
    ver := "v7"
    official := true }

/-- sportsGet models mcp.sports.get: the registry holds exactly the NFL entry. -/
def sportsGet (sport_name : String) : Option Sport :=
  if sport_name = "nfl" then some nflSport else none

/- SportRadarConfig (server.py lines 29-65). -/

structure SportRadarConfig where
  format : String := "json"
  access_level : String := "trial"
  cur_lang : String := "en"
  deriving DecidableEq, Repr

/-- get_base_url (server.py lines 35-42). When the sport is not registered the
    source returns an f-string interpolating the local variable that holds the
    failed lookup result, which is None at that point, so the message literally
    says "Sport None ...". -/
def SportRadarConfig.get_base_url (cfg : SportRadarConfig) (sport_name : String) : String :=
  match sportsGet sport_name with
  | none =>
      "Sport None was not in list of supported sports or is unavailable on SportsRadar. Contact developer for additions"
  | some sport =>
      if sport.name = "nfl" then
        "https://api.sportradar.com/" ++ sport.name ++ "/official/" ++ cfg.access_level
          ++ "/" ++ sport.ver ++ "/" ++ cfg.cur_lang
      else
        "https://api.sportradar.com/" ++ sport.name ++ "/" ++ cfg.access_level
          ++ "/" ++ sport.ver ++ "/" ++ cfg.cur_lang

/-- pyStrTruthy models Python truthiness of an optional string argument:
    an omitted argument (None) and the empty string are falsy. -/
def pyStrTruthy : Option String → Bool
  | none => false
  | some s => !s.isEmpty

/-- update_api_config (server.py lines 320-336): each provided truthy field is
    written into the config; the returned confirmation text ends with a base
    URL freshly computed from the updated config for the NFL reference sport. -/
def update_api_config (cfg : SportRadarConfig)
    (language access_level format : Option String) : String × SportRadarConfig :=
  let cfg := if pyStrTruthy language then { cfg with cur_lang := language.getD "" } else cfg
  let cfg := if pyStrTruthy access_level then { cfg with access_level := access_level.getD "" } else cfg
  let cfg := if pyStrTruthy format then { cfg with format := format.getD "" } else cfg
  ("Updated Configs:\n    Format: " ++ cfg.format
    ++ "\n    Language: " ++ cfg.cur_lang
    ++ "\n    Access Level: " ++ cfg.access_level
    ++ "\n    Base URL (updated): " ++ cfg.get_base_url "nfl", cfg)

namespace SeasonSchedule

/-- parse_football_schedule (server.py lines 99-105): read-through identity on
    the payload, keyed by the payload's top-level id field (None when absent). -/
def parse_football_schedule (cache : Cache) (data : Json) : Except PyErr (Json × Cache) := do
  let sched_id ← pyGet data "id"
  if pyHashable sched_id then
    match cacheFind cache sched_id with
    | some v => pure (v, cache)
    | none => pure (data, cacheInsert cache sched_id data)
  else .error .typeError

/-- parse_schedule (server.py lines 84-97): dispatch on sport; NFL is the only
    member of SupportedSports, so the no-parser ValueError branch is
    unreachable and has no case here. -/
def parse_schedule (cache : Cache) (data : Json) (sport : SupportedSports) :
    Except PyErr (Json × Cache) :=
  match sport with
  | .NFL => parse_football_schedule cache data

end SeasonSchedule

namespace GameStats

/-- parse_nfl_stats of GameStats (server.py lines 200-206): read-through
    identity keyed by the payload's top-level id field. -/
def parse_nfl_stats (cache : Cache) (data : Json) : Except PyErr (Json × Cache) := do
  let stats_id ← pyGet data "id"
  if pyHashable stats_id then
    match cacheFind cache stats_id with
    | some v => pure (v, cache)
    | none => pure (data, cacheInsert cache stats_id data)
  else .error .typeError

end GameStats

namespace TeamStats

/-- parse_nfl_stats of TeamStats (server.py lines 271-277): read-through
    identity keyed by the payload's top-level id field. -/
def parse_nfl_stats (cache : Cache) (data : Json) : Except PyErr (Json × Cache) := do
  let stats_id ← pyGet data "id"
  if pyHashable stats_id then
    match cacheFind cache stats_id with
    | some v => pure (v, cache)
    | none => pure (data, cacheInsert cache stats_id data)
  else .error .typeError

end TeamStats

namespace PlayerStats

/-- parse_nfl_stats of PlayerStats (server.py lines 307-313): read-through
    identity keyed by the payload's top-level id field. -/
def parse_nfl_stats (cache : Cache) (data : Json) : Except PyErr (Json × Cache) := do
  let stats_id ← pyGet data "id"
  if pyHashable stats_id then
    match cacheFind cache stats_id with
    | some v => pure (v, cache)
    | none => pure (data, cacheInsert cache stats_id data)
  else .error .typeError

end PlayerStats

namespace LeagueStats

/-- parse_nfl_stats of LeagueStats (server.py lines 236-242): read-through
    identity keyed by data.get('league').get('id'). -/
def parse_nfl_stats (cache : Cache) (data : Json) : Except PyErr (Json × Cache) := do
  let league ← pyGet data "league"
  let stats_id ← pyGet league "id"
  if pyHashable stats_id then
    match cacheFind cache stats_id with
    | some v => pure (v, cache)
    | none => pure (data, cacheInsert cache stats_id data)
  else .error .typeError

end LeagueStats

namespace LeagueTransactions

/-- transactions_cache_key is line 135 of server.py factored out:
    data.get('league').get('id') + data.get('start_time') + data.get('end_time'). -/
def transactions_cache_key (data : Json) : Except PyErr Json := do
  let league ← pyGet data "league"
  let league_id ← pyGet league "id"
  let start_time ← pyGet data "start_time"
  let end_time ← pyGet data "end_time"
  let s ← pyAdd league_id start_time
  pyAdd s end_time

/-- parse_one_transaction is the body of the inner loop of
    parse_nfl_transactions (server.py lines 159-167). -/
def parse_one_transaction (transaction : Json) : Except PyErr Json := do
  let recieving_team ← pyGet transaction "to_team"
  let desc ← pyGet transaction "desc"
  let effective ← pyGet transaction "effective_date"
  let status_before ← pyGet transaction "status_before"
  let market ← pyGet recieving_team "market"
  let tname ← pyGet recieving_team "name"
  let ms ← pyAdd market (.str " ")
  let full ← pyAdd ms tname
  pure (jobj [("transaction", desc), ("effective", effective),
    ("status_before", status_before), ("recieving_team", full)])

def parse_transactions_list : List Json → Except PyErr (List Json)
  | [] => pure []
  | t :: rest => do
    let x ← parse_one_transaction t
    let xs ← parse_transactions_list rest
    pure (x :: xs)

/-- parse_one_player is the body of the outer loop of parse_nfl_transactions
    (server.py lines 152-168). -/
def parse_one_player (plr : Json) : Except PyErr Json := do
  let pname ← pyGet plr "name"
  let position ← pyGet plr "position"
  let trs ← pyGet plr "transactions"
  let trsList ← pyIter trs
  let transactions ← parse_transactions_list trsList
  pure (jobj [("name", pname), ("position", position),
    ("transactions", jarr transactions)])

def parse_players_list : List Json → Except PyErr (List Json)
  | [] => pure []
  | p :: rest => do
    let x ← parse_one_player p
    let xs ← parse_players_list rest
    pure (x :: xs)

/-- parse_nfl_transactions (server.py lines 134-171): derive the key, return a
    cached hit unchanged; on a miss, a falsy players field returns the sentinel
    string without storing anything, otherwise the normalized league record is
    built, stored under the key and returned. -/
def parse_nfl_transactions (cache : Cache) (data : Json) : Except PyErr (Json × Cache) := do
  let transaction_id ← transactions_cache_key data
  if pyHashable transaction_id then
    match cacheFind cache transaction_id with
    | some v => pure (v, cache)
    | none => do
      let league ← pyGet data "league"
      let league_name ← pyGet league "name"
      let start_time ← pyGet data "start_time"
      let end_time ← pyGet data "end_time"
      let players_raw ← pyGet data "players"
      if pyTruthy players_raw then do
        let plrs ← pyIter players_raw
        let players ← parse_players_list plrs
        let league_rec := jobj [("id", transaction_id), ("name", league_name),
          ("start_time", start_time), ("end_time", end_time), ("players", jarr players)]
        pure (league_rec, cacheInsert cache transaction_id league_rec)
      else
        pure (.str "No transactions done on this day.", cache)
  else .error .typeError

/-- parse_transactions (server.py lines 119-132): dispatch on sport. -/
def parse_transactions (cache : Cache) (data : Json) (sport : SupportedSports) :
    Except PyErr (Json × Cache) :=
  match sport with
  | .NFL => parse_nfl_transactions cache data

end LeagueTransactions
def lat40p1 : Rat := ⟨401, 10, by decide, by decide⟩

def lngNeg74p2 : Rat := ⟨-371, 5, by decide, by decide⟩

/-- scheduleExamplePayload is the raw schedule payload of the end-to-end
    scenario in spec section 8. -/
def scheduleExamplePayload : Json := jobj [
  ("season", jobj [("id", .str "2024-REG"), ("year", .num 2024)]),
  ("weeks", jarr [jobj [
    ("id", .str "w1"), ("sequence", .num 1),
    ("games", jarr [jobj [
      ("id", .str "g1"), ("scheduled", .str "2024-09-08T17:00:00Z"),
      ("venue", jobj [("name", .str "Stadium A"),
        ("location", jobj [("lat", .num lat40p1), ("lng", .num lngNeg74p2)])]),
      ("home", jobj [("name", .str "Team A")]),
      ("away", jobj [("name", .str "Team B")]),
      ("scoring", jobj [("home_points", .num 21), ("away_points", .num 17)])]])]])]

/-- scheduleExampleExpected is the normalized output the section 8 scenario
    claims for scheduleExamplePayload. -/
def scheduleExampleExpected : Json := jobj [
  ("season", jobj [
    ("id", .str "2024-REG"), ("year", .num 2024),
    ("weeks", jarr [jobj [
      ("id", .str "w1"), ("num", .num 1),
      ("games", jarr [jobj [
        ("id", .str "g1"), ("date", .str "2024-09-08T17:00:00Z"),
        ("location", jobj [("lat", .num lat40p1), ("lng", .num lngNeg74p2)]),
        ("stadium", .str "Stadium A"),
        ("home_team", .str "Team A"), ("away_team", .str "Team B"),
        ("score_home", .num 21), ("score_away", .num 17)]])]])])]

/-- transactionsPayloadA is a well-formed transactions payload with one player
    and one transaction. -/
def transactionsPayloadA : Json := jobj [
  ("league", jobj [("id", .str "L1"), ("name", .str "Name A")]),
  ("start_time", .str "S1"), ("end_time", .str "E1"),
  ("players", jarr [jobj [("name", .str "Player One"), ("position", .str "QB"),
    ("transactions", jarr [jobj [("desc", .str "signed"), ("effective_date", .str "D"),
      ("status_before", .str "FA"),
      ("to_team", jobj [("market", .str "City"), ("name", .str "Team")])]])]])]

/-- transactionsPayloadB shares league id, start time and end time with
    transactionsPayloadA but differs in every other field. -/
def transactionsPayloadB : Json := jobj [
  ("league", jobj [("id", .str "L1"), ("name", .str "Name B")]),
  ("start_time", .str "S1"), ("end_time", .str "E1"),
  ("players", jarr [])]

/-- transactionsPayloadC shares league id, start time and end time with
    transactionsPayloadA but has an empty player list and another league name. -/
def transactionsPayloadC : Json := jobj [
  ("league", jobj [("id", .str "L1"), ("name", .str "Name C")]),
  ("start_time", .str "S1"), ("end_time", .str "E1"),
  ("players", jarr [])]

/-- transactionsNormA is the normalized league record the parser builds for
    transactionsPayloadA. -/
def transactionsNormA : Json := jobj [
  ("id", .str "L1S1E1"), ("name", .str "Name A"),
  ("start_time", .str "S1"), ("end_time", .str "E1"),
  ("players", jarr [jobj [("name", .str "Player One"), ("position", .str "QB"),
    ("transactions", jarr [jobj [("transaction", .str "signed"), ("effective", .str "D"),
      ("status_before", .str "FA"), ("recieving_team", .str "City Team")]])]])]

/-- transactionsEmptyPlayersPayload has the key fields but an empty player list. -/
def transactionsEmptyPlayersPayload : Json := jobj [
  ("league", jobj [("id", .str "NFL-L"), ("name", .str "National Football League")]),
  ("start_time", .str "2024-05-01T00:00:00Z"),
  ("end_time", .str "2024-05-02T00:00:00Z"),
  ("players", jarr [])]

/-- transactionsNoPlayersFieldPayload has the key fields and no players field
    at all, so data.get of players yields None. -/
def transactionsNoPlayersFieldPayload : Json := jobj [
  ("league", jobj [("id", .str "NFL-L"), ("name", .str "National Football League")]),
  ("start_time", .str "T1"), ("end_time", .str "T2")]

/-- noLeaguePayload lacks the league object needed for key extraction. -/
def noLeaguePayload : Json := jobj [
  ("start_time", .str "S"), ("end_time", .str "E"), ("players", jarr [])]

/-- idlessPayloadA and idlessPayloadB are payloads without a top-level id. -/
def idlessPayloadA : Json := jobj [("a", .num 1)]

def idlessPayloadB : Json := jobj [("b", .num 2)]

/-- schedulePayloadWithId is a schedule payload carrying a top-level id, the
    shape the parser actually keys on. -/
def schedulePayloadWithId : Json := jobj [
  ("id", .str "sr-season-2024"), ("year", .num 2024)]
theorem exceptBind_ok {α β : Type} {e : Except PyErr α} {f : α → Except PyErr β} {y : β} :
    e >>= f = .ok y ↔ ∃ a, e = .ok a ∧ f a = .ok y := by
  cases e <;> simp [Bind.bind, Except.bind]

theorem pure_eq_ok {α : Type} (a : α) : (pure a : Except PyErr α) = .ok a := rfl

theorem cacheFind_cacheInsert_self (c : Cache) (k v : Json) :
    cacheFind (cacheInsert c k v) k = some v := by
  simp [cacheInsert, cacheFind]

namespace SeasonSchedule

theorem parse_football_schedule_hit {c : Cache} {d k v : Json}
    (hk : pyGet d "id" = .ok k) (hh : pyHashable k = true)
    (hf : cacheFind c k = some v) :
    parse_football_schedule c d = .ok (v, c) := by
  simp [parse_football_schedule, hk, hh, hf, Bind.bind, Except.bind, pure, Except.pure]

theorem parse_football_schedule_miss {c : Cache} {d k : Json}
    (hk : pyGet d "id" = .ok k) (hh : pyHashable k = true)
    (hf : cacheFind c k = none) :
    parse_football_schedule c d = .ok (d, cacheInsert c k d) := by
  simp [parse_football_schedule, hk, hh, hf, Bind.bind, Except.bind, pure, Except.pure]

theorem parse_football_schedule_ok_elim {c : Cache} {d r : Json} {c' : Cache}
    (h : parse_football_schedule c d = .ok (r, c')) :
    ∃ k, pyGet d "id" = .ok k ∧ pyHashable k = true ∧
      ((cacheFind c k = some r ∧ c' = c) ∨
       (cacheFind c k = none ∧ r = d ∧ c' = cacheInsert c k d)) := by
  cases hk : pyGet d "id" with
  | error e => simp [parse_football_schedule, hk, Bind.bind, Except.bind] at h
  | ok k =>
    refine ⟨k, rfl, ?_⟩
    by_cases hh : pyHashable k = true
    · cases hf : cacheFind c k with
      | some v =>
        simp [parse_football_schedule, hk, hh, hf, Bind.bind, Except.bind, pure, Except.pure] at h
        exact ⟨hh, Or.inl ⟨congrArg some h.1, h.2.symm⟩⟩
      | none =>
        simp [parse_football_schedule, hk, hh, hf, Bind.bind, Except.bind, pure, Except.pure] at h
        exact ⟨hh, Or.inr ⟨rfl, h.1.symm, h.2.symm⟩⟩
    · simp [parse_football_schedule, hk, hh, Bind.bind, Except.bind] at h

end SeasonSchedule
theorem gameStats_parse_eq_schedule_parse :
    GameStats.parse_nfl_stats = SeasonSchedule.parse_football_schedule := rfl

theorem teamStats_parse_eq_schedule_parse :
    TeamStats.parse_nfl_stats = SeasonSchedule.parse_football_schedule := rfl

theorem playerStats_parse_eq_schedule_parse :
    PlayerStats.parse_nfl_stats = SeasonSchedule.parse_football_schedule := rfl

namespace LeagueStats

theorem parse_nfl_stats_hit {c : Cache} {d lg k v : Json}
    (hl : pyGet d "league" = .ok lg) (hk : pyGet lg "id" = .ok k)
    (hh : pyHashable k = true) (hf : cacheFind c k = some v) :
    parse_nfl_stats c d = .ok (v, c) := by
  simp [parse_nfl_stats, hl, hk, hh, hf, Bind.bind, Except.bind, pure, Except.pure]

theorem parse_nfl_stats_miss {c : Cache} {d lg k : Json}
    (hl : pyGet d "league" = .ok lg) (hk : pyGet lg "id" = .ok k)
    (hh : pyHashable k = true) (hf : cacheFind c k = none) :
    parse_nfl_stats c d = .ok (d, cacheInsert c k d) := by
  simp [parse_nfl_stats, hl, hk, hh, hf, Bind.bind, Except.bind, pure, Except.pure]

theorem parse_nfl_stats_ok_elim {c : Cache} {d r : Json} {c' : Cache}
    (h : parse_nfl_stats c d = .ok (r, c')) :
    ∃ lg k, pyGet d "league" = .ok lg ∧ pyGet lg "id" = .ok k ∧ pyHashable k = true ∧
      ((cacheFind c k = some r ∧ c' = c) ∨
       (cacheFind c k = none ∧ r = d ∧ c' = cacheInsert c k d)) := by
  cases hl : pyGet d "league" with
  | error e => simp [parse_nfl_stats, hl, Bind.bind, Except.bind] at h
  | ok lg =>
    cases hk : pyGet lg "id" with
    | error e => simp [parse_nfl_stats, hl, hk, Bind.bind, Except.bind] at h
    | ok k =>
      refine ⟨lg, k, rfl, hk, ?_⟩
      by_cases hh : pyHashable k = true
      · cases hf : cacheFind c k with
        | some v =>
          simp [parse_nfl_stats, hl, hk, hh, hf, Bind.bind, Except.bind, pure, Except.pure] at h
          exact ⟨hh, Or.inl ⟨congrArg some h.1, h.2.symm⟩⟩
        | none =>
          simp [parse_nfl_stats, hl, hk, hh, hf, Bind.bind, Except.bind, pure, Except.pure] at h
          exact ⟨hh, Or.inr ⟨rfl, h.1.symm, h.2.symm⟩⟩
      · simp [parse_nfl_stats, hl, hk, hh, Bind.bind, Except.bind] at h

end LeagueStats
namespace LeagueTransactions

theorem transactions_cache_key_str {d lg : Json} {L S E : String}
    (hl : pyGet d "league" = .ok lg) (hid : pyGet lg "id" = .ok (.str L))
    (hst : pyGet d "start_time" = .ok (.str S)) (het : pyGet d "end_time" = .ok (.str E)) :
    transactions_cache_key d = .ok (.str (L ++ S ++ E)) := by
  simp [transactions_cache_key, hl, hid, hst, het, pyAdd, Bind.bind, Except.bind]

theorem parse_nfl_transactions_hit {c : Cache} {d tid v : Json}
    (hk : transactions_cache_key d = .ok tid) (hh : pyHashable tid = true)
    (hf : cacheFind c tid = some v) :
    parse_nfl_transactions c d = .ok (v, c) := by
  simp [parse_nfl_transactions, hk, hh, hf, Bind.bind, Except.bind, pure, Except.pure]

theorem parse_nfl_transactions_sentinel {c : Cache} {d tid lg nm st et ps : Json}
    (hk : transactions_cache_key d = .ok tid) (hh : pyHashable tid = true)
    (hf : cacheFind c tid = none)
    (hl : pyGet d "league" = .ok lg) (hn : pyGet lg "name" = .ok nm)
    (hst : pyGet d "start_time" = .ok st) (het : pyGet d "end_time" = .ok et)
    (hp : pyGet d "players" = .ok ps) (ht : pyTruthy ps = false) :
    parse_nfl_transactions c d = .ok (.str "No transactions done on this day.", c) := by
  simp [parse_nfl_transactions, hk, hh, hf, hl, hn, hst, het, hp, ht,
    Bind.bind, Except.bind, pure, Except.pure]

theorem parse_nfl_transactions_store {c : Cache} {d tid lg nm st et ps : Json}
    {plrs parsed : List Json}
    (hk : transactions_cache_key d = .ok tid) (hh : pyHashable tid = true)
    (hf : cacheFind c tid = none)
    (hl : pyGet d "league" = .ok lg) (hn : pyGet lg "name" = .ok nm)
    (hst : pyGet d "start_time" = .ok st) (het : pyGet d "end_time" = .ok et)
    (hp : pyGet d "players" = .ok ps) (ht : pyTruthy ps = true)
    (hi : pyIter ps = .ok plrs) (hpl : parse_players_list plrs = .ok parsed) :
    parse_nfl_transactions c d =
      .ok (jobj [("id", tid), ("name", nm), ("start_time", st), ("end_time", et),
            ("players", jarr parsed)],
          cacheInsert c tid (jobj [("id", tid), ("name", nm), ("start_time", st),
            ("end_time", et), ("players", jarr parsed)])) := by
  simp [parse_nfl_transactions, hk, hh, hf, hl, hn, hst, het, hp, ht, hi, hpl,
    Bind.bind, Except.bind, pure, Except.pure]

theorem parse_nfl_transactions_ok_elim {c : Cache} {d r : Json} {c' : Cache}
    (h : parse_nfl_transactions c d = .ok (r, c')) :
    ∃ tid, transactions_cache_key d = .ok tid ∧ pyHashable tid = true ∧
      ((cacheFind c tid = some r ∧ c' = c) ∨
       (cacheFind c tid = none ∧
         ∃ lg nm st et ps, pyGet d "league" = .ok lg ∧ pyGet lg "name" = .ok nm ∧
           pyGet d "start_time" = .ok st ∧ pyGet d "end_time" = .ok et ∧
           pyGet d "players" = .ok ps ∧
           ((pyTruthy ps = false ∧ r = .str "No transactions done on this day." ∧ c' = c) ∨
            (pyTruthy ps = true ∧ ∃ plrs parsed, pyIter ps = .ok plrs ∧
              parse_players_list plrs = .ok parsed ∧
              r = jobj [("id", tid), ("name", nm), ("start_time", st), ("end_time", et),
                ("players", jarr parsed)] ∧
              c' = cacheInsert c tid r)))) := by
  cases hk : transactions_cache_key d with
  | error e => simp [parse_nfl_transactions, hk, Bind.bind, Except.bind] at h
  | ok tid =>
    refine ⟨tid, rfl, ?_⟩
    by_cases hh : pyHashable tid = true
    · cases hf : cacheFind c tid with
      | some v =>
        simp [parse_nfl_transactions, hk, hh, hf, Bind.bind, Except.bind, pure, Except.pure] at h
        exact ⟨hh, Or.inl ⟨congrArg some h.1, h.2.symm⟩⟩
      | none =>
        cases hl : pyGet d "league" with
        | error e =>
          simp [parse_nfl_transactions, hk, hh, hf, hl, Bind.bind, Except.bind] at h
        | ok lg =>
          cases hn : pyGet lg "name" with
          | error e =>
            simp [parse_nfl_transactions, hk, hh, hf, hl, hn, Bind.bind, Except.bind] at h
          | ok nm =>
            cases hst : pyGet d "start_time" with
            | error e =>
              simp [parse_nfl_transactions, hk, hh, hf, hl, hn, hst,
                Bind.bind, Except.bind] at h
            | ok st =>
              cases het : pyGet d "end_time" with
              | error e =>
                simp [parse_nfl_transactions, hk, hh, hf, hl, hn, hst, het,
                  Bind.bind, Except.bind] at h
              | ok et =>
                cases hp : pyGet d "players" with
                | error e =>
                  simp [parse_nfl_transactions, hk, hh, hf, hl, hn, hst, het, hp,
                    Bind.bind, Except.bind] at h
                | ok ps =>
                  refine ⟨hh, Or.inr ⟨rfl, lg, nm, st, et, ps, rfl, hn, rfl, rfl, rfl, ?_⟩⟩
                  by_cases ht : pyTruthy ps = true
                  · cases hi : pyIter ps with
                    | error e =>
                      simp [parse_nfl_transactions, hk, hh, hf, hl, hn, hst, het, hp, ht, hi,
                        Bind.bind, Except.bind] at h
                    | ok plrs =>
                      cases hpl : parse_players_list plrs with
                      | error e =>
                        simp [parse_nfl_transactions, hk, hh, hf, hl, hn, hst, het, hp, ht,
                          hi, hpl, Bind.bind, Except.bind] at h
                      | ok parsed =>
                        simp [parse_nfl_transactions, hk, hh, hf, hl, hn, hst, het, hp, ht,
                          hi, hpl, Bind.bind, Except.bind, pure, Except.pure] at h
                        exact Or.inr ⟨ht, plrs, parsed, rfl, hpl, h.1.symm, by rw [← h.2, h.1]⟩
                  · rw [Bool.not_eq_true] at ht
                    simp [parse_nfl_transactions, hk, hh, hf, hl, hn, hst, het, hp, ht,
                      Bind.bind, Except.bind, pure, Except.pure] at h
                    exact Or.inl ⟨ht, h.1.symm, h.2.symm⟩
    · simp [parse_nfl_transactions, hk, hh, Bind.bind, Except.bind] at h

end LeagueTransactions
/-- Claim C1 (counterexample): on the section 8 example payload, schedule
    parsing for NFL returns the raw payload unchanged, cached under the absent
    top-level id (None), and this differs from the section 8 normalized output. -/
theorem schedule_parse_section8_example_not_normalized :
    SeasonSchedule.parse_schedule [] scheduleExamplePayload .NFL =
      .ok (scheduleExamplePayload, [(Json.null, scheduleExamplePayload)]) ∧
    scheduleExamplePayload ≠ scheduleExampleExpected := by
  exact ⟨rfl, by decide⟩

/-- Claim C1 (amended): parse(schedule, payload, nfl) performs no field
    narrowing at all: it is a caching identity that returns the raw payload
    unchanged and stores it under the payload's top-level id (None when
    absent); no section 3/8 field subset is extracted. -/
theorem schedule_parse_identity_passthrough (c : Cache) (d k : Json)
    (hk : pyGet d "id" = .ok k) (hh : pyHashable k = true)
    (hf : cacheFind c k = none) :
    SeasonSchedule.parse_schedule c d .NFL = .ok (d, cacheInsert c k d) :=
  SeasonSchedule.parse_football_schedule_miss hk hh hf

/-- Witness for schedule_parse_identity_passthrough at the section 8 payload. -/
theorem schedule_parse_identity_passthrough_witness :
    pyGet scheduleExamplePayload "id" = .ok .null ∧
    pyHashable Json.null = true ∧
    cacheFind [] Json.null = none ∧
    SeasonSchedule.parse_schedule [] scheduleExamplePayload .NFL =
      .ok (scheduleExamplePayload, cacheInsert [] Json.null scheduleExamplePayload) :=
  ⟨rfl, rfl, rfl,
    schedule_parse_identity_passthrough [] scheduleExamplePayload .null rfl rfl rfl⟩
/-- Claim C2 (counterexample): for the transactions kind the first parse of an
    empty-players payload does not store anything: it returns the sentinel with
    the cache still empty, so the derived key is absent afterwards and a second
    byte-identical parse misses the cache and re-runs the normalizer. -/
theorem transactions_empty_players_not_stored :
    LeagueTransactions.parse_nfl_transactions [] transactionsEmptyPlayersPayload =
      .ok (.str "No transactions done on this day.", []) ∧
    LeagueTransactions.transactions_cache_key transactionsEmptyPlayersPayload =
      .ok (.str "NFL-L2024-05-01T00:00:00Z2024-05-02T00:00:00Z") ∧
    cacheFind [] (.str "NFL-L2024-05-01T00:00:00Z2024-05-02T00:00:00Z") = none := by
  exact ⟨rfl, rfl, rfl⟩

/-- Claim C2 (amended): re-parsing a byte-identical payload after a successful
    parse returns the same result with the cache unchanged, for every resource
    kind; moreover the result is retrievable under the derived key afterwards
    for every kind, except on the transactions empty-players sentinel path,
    where nothing is stored. GameStats, TeamStats and PlayerStats parse with
    the very same function as the schedule (see the parser equality theorems),
    so their stored-key statements coincide with the schedule one. -/
theorem reparse_returns_same_result_and_nonsentinel_stores
    (d : Json) (c c' : Cache) (r : Json) :
    (SeasonSchedule.parse_football_schedule c d = .ok (r, c') →
      SeasonSchedule.parse_football_schedule c' d = .ok (r, c')) ∧
    (GameStats.parse_nfl_stats c d = .ok (r, c') →
      GameStats.parse_nfl_stats c' d = .ok (r, c')) ∧
    (TeamStats.parse_nfl_stats c d = .ok (r, c') →
      TeamStats.parse_nfl_stats c' d = .ok (r, c')) ∧
    (PlayerStats.parse_nfl_stats c d = .ok (r, c') →
      PlayerStats.parse_nfl_stats c' d = .ok (r, c')) ∧
    (LeagueStats.parse_nfl_stats c d = .ok (r, c') →
      LeagueStats.parse_nfl_stats c' d = .ok (r, c')) ∧
    (LeagueTransactions.parse_nfl_transactions c d = .ok (r, c') →
      LeagueTransactions.parse_nfl_transactions c' d = .ok (r, c')) ∧
    (SeasonSchedule.parse_football_schedule c d = .ok (r, c') →
      ∀ k, pyGet d "id" = .ok k → cacheFind c' k = some r) ∧
    (LeagueStats.parse_nfl_stats c d = .ok (r, c') →
      ∀ lg k, pyGet d "league" = .ok lg → pyGet lg "id" = .ok k →
        cacheFind c' k = some r) ∧
    (LeagueTransactions.parse_nfl_transactions c d = .ok (r, c') →
      r ≠ .str "No transactions done on this day." →
      ∀ tid, LeagueTransactions.transactions_cache_key d = .ok tid →
        cacheFind c' tid = some r) := by
  have hsched : SeasonSchedule.parse_football_schedule c d = .ok (r, c') →
      SeasonSchedule.parse_football_schedule c' d = .ok (r, c') := by
    intro h
    obtain ⟨k, hk, hh, hcase⟩ := SeasonSchedule.parse_football_schedule_ok_elim h
    rcases hcase with ⟨hf, hc⟩ | ⟨hf, hrd, hc⟩
    · subst hc; exact h
    · have hfind : cacheFind c' k = some r := by
        rw [hc, hrd]; exact cacheFind_cacheInsert_self c k d
      exact SeasonSchedule.parse_football_schedule_hit hk hh hfind
  have hschedstore : SeasonSchedule.parse_football_schedule c d = .ok (r, c') →
      ∀ k, pyGet d "id" = .ok k → cacheFind c' k = some r := by
    intro h k0 hk0
    obtain ⟨k, hk, hh, hcase⟩ := SeasonSchedule.parse_football_schedule_ok_elim h
    have hkk : k = k0 := by rw [hk] at hk0; exact Except.ok.inj hk0
    subst hkk
    rcases hcase with ⟨hf, hc⟩ | ⟨hf, hrd, hc⟩
    · rw [hc]; exact hf
    · rw [hc, hrd]; exact cacheFind_cacheInsert_self c k d
  have hleague : LeagueStats.parse_nfl_stats c d = .ok (r, c') →
      LeagueStats.parse_nfl_stats c' d = .ok (r, c') := by
    intro h
    obtain ⟨lg, k, hl, hk, hh, hcase⟩ := LeagueStats.parse_nfl_stats_ok_elim h
    rcases hcase with ⟨hf, hc⟩ | ⟨hf, hrd, hc⟩
    · subst hc; exact h
    · have hfind : cacheFind c' k = some r := by
        rw [hc, hrd]; exact cacheFind_cacheInsert_self c k d
      exact LeagueStats.parse_nfl_stats_hit hl hk hh hfind
  have hleaguestore : LeagueStats.parse_nfl_stats c d = .ok (r, c') →
      ∀ lg k, pyGet d "league" = .ok lg → pyGet lg "id" = .ok k →
        cacheFind c' k = some r := by
    intro h lg0 k0 hl0 hk0
    obtain ⟨lg, k, hl, hk, hh, hcase⟩ := LeagueStats.parse_nfl_stats_ok_elim h
    have hlg : lg = lg0 := by rw [hl] at hl0; exact Except.ok.inj hl0
    subst hlg
    have hkk : k = k0 := by rw [hk] at hk0; exact Except.ok.inj hk0
    subst hkk
    rcases hcase with ⟨hf, hc⟩ | ⟨hf, hrd, hc⟩
    · rw [hc]; exact hf
    · rw [hc, hrd]; exact cacheFind_cacheInsert_self c k d
  have htrans : LeagueTransactions.parse_nfl_transactions c d = .ok (r, c') →
      LeagueTransactions.parse_nfl_transactions c' d = .ok (r, c') := by
    intro h
    obtain ⟨tid, hk, hh, hcase⟩ := LeagueTransactions.parse_nfl_transactions_ok_elim h
    rcases hcase with ⟨hf, hc⟩ |
      ⟨hf, lg, nm, st, et, ps, hl, hn, hst, het, hp, hrest⟩
    · subst hc; exact h
    · rcases hrest with ⟨ht, hrs, hc⟩ | ⟨ht, plrs, parsed, hi, hpl, hrec, hc⟩
      · subst hc; exact h
      · have hfind : cacheFind c' tid = some r := by
          rw [hc]; exact cacheFind_cacheInsert_self c tid r
        exact LeagueTransactions.parse_nfl_transactions_hit hk hh hfind
  have htransstore : LeagueTransactions.parse_nfl_transactions c d = .ok (r, c') →
      r ≠ .str "No transactions done on this day." →
      ∀ tid, LeagueTransactions.transactions_cache_key d = .ok tid →
        cacheFind c' tid = some r := by
    intro h hr tid0 hk0
    obtain ⟨tid, hk, hh, hcase⟩ := LeagueTransactions.parse_nfl_transactions_ok_elim h
    have htid : tid = tid0 := by rw [hk] at hk0; exact Except.ok.inj hk0
    subst htid
    rcases hcase with ⟨hf, hc⟩ |
      ⟨hf, lg, nm, st, et, ps, hl, hn, hst, het, hp, hrest⟩
    · rw [hc]; exact hf
    · rcases hrest with ⟨ht, hrs, hc⟩ | ⟨ht, plrs, parsed, hi, hpl, hrec, hc⟩
      · exact absurd hrs hr
      · rw [hc]; exact cacheFind_cacheInsert_self c tid r
  exact ⟨hsched, hsched, hsched, hsched, hleague, htrans, hschedstore, hleaguestore, htransstore⟩

/-- Witness for reparse_returns_same_result_and_nonsentinel_stores: parsing
    transactionsPayloadA stores its normalized record, and the second parse of
    the byte-identical payload returns that stored result with the cache
    unchanged. -/
theorem reparse_returns_same_result_witness :
    LeagueTransactions.parse_nfl_transactions [] transactionsPayloadA =
      .ok (transactionsNormA, [(Json.str "L1S1E1", transactionsNormA)]) ∧
    LeagueTransactions.parse_nfl_transactions
        [(Json.str "L1S1E1", transactionsNormA)] transactionsPayloadA =
      .ok (transactionsNormA, [(Json.str "L1S1E1", transactionsNormA)]) :=
  ⟨rfl,
    (reparse_returns_same_result_and_nonsentinel_stores transactionsPayloadA []
      [(Json.str "L1S1E1", transactionsNormA)] transactionsNormA).2.2.2.2.2.1 rfl⟩
/-- Claim C3 (counterexample): two payloads sharing league id, start time and
    end time derive the same key, but they need not collapse to one cache
    entry: when the first payload has an empty player list its parse returns
    the sentinel and stores nothing, so the second parse misses the cache and
    returns its own fresh normalization, not the first's stored result. -/
theorem transactions_same_key_no_store_no_collapse :
    LeagueTransactions.transactions_cache_key transactionsPayloadC =
      .ok (.str "L1S1E1") ∧
    LeagueTransactions.transactions_cache_key transactionsPayloadA =
      .ok (.str "L1S1E1") ∧
    LeagueTransactions.parse_nfl_transactions [] transactionsPayloadC =
      .ok (.str "No transactions done on this day.", []) ∧
    LeagueTransactions.parse_nfl_transactions [] transactionsPayloadA =
      .ok (transactionsNormA, [(Json.str "L1S1E1", transactionsNormA)]) ∧
    transactionsNormA ≠ .str "No transactions done on this day." := by
  exact ⟨rfl, rfl, rfl, rfl, by decide⟩

/-- Claim C3 (amended): the transactions cache key is the separator-free
    concatenation of league id, start time and end time, so any two payloads
    differing only in other fields derive the same key; they collapse to one
    cache entry when the first parse actually stored a (non-sentinel) result,
    in which case parsing the second payload returns the first's stored
    result. -/
theorem transactions_key_is_concat_and_collapses
    (c : Cache) (d1 d2 lg1 lg2 r : Json) (c1 : Cache) (L S E : String)
    (h1l : pyGet d1 "league" = .ok lg1) (h1i : pyGet lg1 "id" = .ok (.str L))
    (h1s : pyGet d1 "start_time" = .ok (.str S))
    (h1e : pyGet d1 "end_time" = .ok (.str E))
    (h2l : pyGet d2 "league" = .ok lg2) (h2i : pyGet lg2 "id" = .ok (.str L))
    (h2s : pyGet d2 "start_time" = .ok (.str S))
    (h2e : pyGet d2 "end_time" = .ok (.str E)) :
    LeagueTransactions.transactions_cache_key d1 = .ok (.str (L ++ S ++ E)) ∧
    LeagueTransactions.transactions_cache_key d2 = .ok (.str (L ++ S ++ E)) ∧
    (LeagueTransactions.parse_nfl_transactions c d1 = .ok (r, c1) →
      r ≠ .str "No transactions done on this day." →
      LeagueTransactions.parse_nfl_transactions c1 d2 = .ok (r, c1)) := by
  have hk1 := LeagueTransactions.transactions_cache_key_str h1l h1i h1s h1e
  have hk2 := LeagueTransactions.transactions_cache_key_str h2l h2i h2s h2e
  refine ⟨hk1, hk2, ?_⟩
  intro h hr
  obtain ⟨tid, hk, hh, hcase⟩ := LeagueTransactions.parse_nfl_transactions_ok_elim h
  have htid : tid = .str (L ++ S ++ E) := by rw [hk] at hk1; exact Except.ok.inj hk1
  subst htid
  rcases hcase with ⟨hf, hc⟩ |
    ⟨hf, lg, nm, st, et, ps, hl, hn, hst, het, hp, hrest⟩
  · subst hc
    exact LeagueTransactions.parse_nfl_transactions_hit hk2 hh hf
  · rcases hrest with ⟨ht, hrs, hc⟩ | ⟨ht, plrs, parsed, hi, hpl, hrec, hc⟩
    · exact absurd hrs hr
    · subst hc
      exact LeagueTransactions.parse_nfl_transactions_hit hk2 hh
        (cacheFind_cacheInsert_self c _ r)

/-- Witness for transactions_key_is_concat_and_collapses: transactionsPayloadB
    differs from transactionsPayloadA in league name and players, but shares
    the three key fields; after A is parsed and stored, parsing B returns A's
    stored record. -/
theorem transactions_key_is_concat_and_collapses_witness :
    LeagueTransactions.transactions_cache_key transactionsPayloadA =
      .ok (.str "L1S1E1") ∧
    LeagueTransactions.parse_nfl_transactions
        [(Json.str "L1S1E1", transactionsNormA)] transactionsPayloadB =
      .ok (transactionsNormA, [(Json.str "L1S1E1", transactionsNormA)]) :=
  ⟨rfl,
    (transactions_key_is_concat_and_collapses [] transactionsPayloadA
        transactionsPayloadB (jobj [("id", .str "L1"), ("name", .str "Name A")])
        (jobj [("id", .str "L1"), ("name", .str "Name B")]) transactionsNormA
        [(Json.str "L1S1E1", transactionsNormA)] "L1" "S1" "E1"
        rfl rfl rfl rfl rfl rfl rfl rfl).2.2 rfl (by decide)⟩

/-- Claim C4: a transactions payload whose players entry is an empty list or
    absent (None) parses to the human-readable sentinel string as an ordinary
    successful value: no structural error and no raised fault. -/
theorem transactions_empty_or_absent_players_sentinel
    (c : Cache) (d tid lg nm st et ps : Json)
    (hk : LeagueTransactions.transactions_cache_key d = .ok tid)
    (hh : pyHashable tid = true) (hf : cacheFind c tid = none)
    (hl : pyGet d "league" = .ok lg) (hn : pyGet lg "name" = .ok nm)
    (hst : pyGet d "start_time" = .ok st) (het : pyGet d "end_time" = .ok et)
    (hp : pyGet d "players" = .ok ps)
    (hps : ps = Json.null ∨ ps = jarr []) :
    LeagueTransactions.parse_nfl_transactions c d =
      .ok (.str "No transactions done on this day.", c) := by
  have ht : pyTruthy ps = false := by rcases hps with h | h <;> subst h <;> rfl
  exact LeagueTransactions.parse_nfl_transactions_sentinel hk hh hf hl hn hst het hp ht

/-- Witness for transactions_empty_or_absent_players_sentinel at a payload
    with no players field at all. -/
theorem transactions_empty_or_absent_players_sentinel_witness :
    pyGet transactionsNoPlayersFieldPayload "players" = .ok Json.null ∧
    LeagueTransactions.parse_nfl_transactions [] transactionsNoPlayersFieldPayload =
      .ok (.str "No transactions done on this day.", []) :=
  ⟨rfl,
    transactions_empty_or_absent_players_sentinel [] transactionsNoPlayersFieldPayload
      (.str "NFL-LT1T2") (jobj [("id", .str "NFL-L"), ("name", .str "National Football League")])
      (.str "National Football League") (.str "T1") (.str "T2") Json.null
      rfl rfl rfl rfl rfl rfl rfl rfl (Or.inl rfl)⟩

/-- Claim C9: whenever the transactions parser returns the no-transactions
    sentinel, the cache is left exactly as it was: nothing is stored under the
    derived key, and a later parse of the byte-identical payload starts from
    the same cache and again re-runs the normalizer to the same sentinel
    instead of hitting the cache. -/
theorem transactions_sentinel_path_frame (c : Cache) (d r : Json) (c2 : Cache)
    (h : LeagueTransactions.parse_nfl_transactions c d = .ok (r, c2))
    (hr : r = .str "No transactions done on this day.") :
    c2 = c ∧ LeagueTransactions.parse_nfl_transactions c2 d = .ok (r, c2) := by
  obtain ⟨tid, hk, hh, hcase⟩ := LeagueTransactions.parse_nfl_transactions_ok_elim h
  rcases hcase with ⟨hf, hc⟩ |
    ⟨hf, lg, nm, st, et, ps, hl, hn, hst, het, hp, hrest⟩
  · subst hc; exact ⟨rfl, h⟩
  · rcases hrest with ⟨ht, hrs, hc⟩ | ⟨ht, plrs, parsed, hi, hpl, hrec, hc⟩
    · subst hc; exact ⟨rfl, h⟩
    · rw [hr] at hrec; simp [jobj] at hrec

/-- Witness for transactions_sentinel_path_frame at the empty-players payload:
    the parse from the empty cache returns the sentinel and the cache stays
    empty. -/
theorem transactions_sentinel_path_frame_witness :
    ([] : Cache) = [] ∧
    LeagueTransactions.parse_nfl_transactions [] transactionsEmptyPlayersPayload =
      .ok (.str "No transactions done on this day.", []) :=
  transactions_sentinel_path_frame [] transactionsEmptyPlayersPayload
    (.str "No transactions done on this day.") [] rfl rfl

/-- Claim C5 (counterexample): a payload with no league object makes both the
    transactions parser and the league-stats parser raise the raw
    AttributeError fault of None.get, not a structural error value naming the
    missing field's role. -/
theorem missing_league_raises_attribute_fault :
    LeagueTransactions.parse_nfl_transactions [] noLeaguePayload =
      .error .attributeError ∧
    LeagueStats.parse_nfl_stats [] noLeaguePayload = .error .attributeError := by
  exact ⟨rfl, rfl⟩

/-- Claim C5 (amended): for every payload dict lacking the league field, key
    extraction evaluates None.get and the parse surfaces the raised
    AttributeError (which the tool layer later stringifies generically); no
    structural error naming the field's logical role is produced. -/
theorem missing_league_attribute_fault_general (fs : JsonFields) (c : Cache)
    (h : fs.lookup "league" = none) :
    LeagueTransactions.parse_nfl_transactions c (.obj fs) = .error .attributeError ∧
    LeagueStats.parse_nfl_stats c (.obj fs) = .error .attributeError := by
  constructor
  · simp [LeagueTransactions.parse_nfl_transactions,
      LeagueTransactions.transactions_cache_key, pyGet, h, Bind.bind, Except.bind]
  · simp [LeagueStats.parse_nfl_stats, pyGet, h, Bind.bind, Except.bind]

/-- Witness for missing_league_attribute_fault_general at a concrete payload. -/
theorem missing_league_attribute_fault_general_witness :
    JsonFields.lookup (JsonFields.ofList
      [("start_time", Json.str "S"), ("end_time", Json.str "E"),
        ("players", jarr [])]) "league" = none ∧
    LeagueTransactions.parse_nfl_transactions [] noLeaguePayload =
      .error .attributeError :=
  ⟨rfl,
    (missing_league_attribute_fault_general (JsonFields.ofList
      [("start_time", Json.str "S"), ("end_time", Json.str "E"),
        ("players", jarr [])]) [] rfl).1⟩
theorem strAppend_assoc (a b c : String) : (a ++ b) ++ c = a ++ (b ++ c) :=
  congrArg String.mk (List.append_assoc a.data b.data c.data)

theorem update_keeps_cur_lang (cfg : SportRadarConfig) (a f : Option String) :
    (update_api_config cfg none a f).2.cur_lang = cfg.cur_lang := by
  rcases a with _ | s1 <;> rcases f with _ | s2
  · rfl
  · by_cases h : s2.isEmpty <;> simp [update_api_config, pyStrTruthy, h]
  · by_cases h : s1.isEmpty <;> simp [update_api_config, pyStrTruthy, h]
  · by_cases h1 : s1.isEmpty <;> by_cases h2 : s2.isEmpty <;>
      simp [update_api_config, pyStrTruthy, h1, h2]

theorem update_keeps_access_level (cfg : SportRadarConfig) (l f : Option String) :
    (update_api_config cfg l none f).2.access_level = cfg.access_level := by
  rcases l with _ | s1 <;> rcases f with _ | s2
  · rfl
  · by_cases h : s2.isEmpty <;> simp [update_api_config, pyStrTruthy, h]
  · by_cases h : s1.isEmpty <;> simp [update_api_config, pyStrTruthy, h]
  · by_cases h1 : s1.isEmpty <;> by_cases h2 : s2.isEmpty <;>
      simp [update_api_config, pyStrTruthy, h1, h2]

theorem update_keeps_format (cfg : SportRadarConfig) (l a : Option String) :
    (update_api_config cfg l a none).2.format = cfg.format := by
  rcases l with _ | s1 <;> rcases a with _ | s2
  · rfl
  · by_cases h : s2.isEmpty <;> simp [update_api_config, pyStrTruthy, h]
  · by_cases h : s1.isEmpty <;> simp [update_api_config, pyStrTruthy, h]
  · by_cases h1 : s1.isEmpty <;> by_cases h2 : s2.isEmpty <;>
      simp [update_api_config, pyStrTruthy, h1, h2]

/-- Claim C6 (code_bug evidence): for a sport id outside the registry the
    source interpolates the None-valued lookup result into the message, so
    every unknown sport id yields the same fixed string "Sport None was not
    ...", which never names the requested sport id. -/
theorem get_base_url_unknown_sport_fixed_message :
    SportRadarConfig.get_base_url {} "mlb" =
      "Sport None was not in list of supported sports or is unavailable on SportsRadar. Contact developer for additions" ∧
    SportRadarConfig.get_base_url {} "nba" = SportRadarConfig.get_base_url {} "mlb" ∧
    (∀ (cfg : SportRadarConfig) (s : String), sportsGet s = none →
      SportRadarConfig.get_base_url cfg s =
        "Sport None was not in list of supported sports or is unavailable on SportsRadar. Contact developer for additions") := by
  refine ⟨rfl, rfl, ?_⟩
  intro cfg s hs
  unfold SportRadarConfig.get_base_url
  rw [hs]

/-- Witness for get_base_url_unknown_sport_fixed_message at sport id mlb. -/
theorem get_base_url_unknown_sport_fixed_message_witness :
    sportsGet "mlb" = none ∧
    SportRadarConfig.get_base_url {} "mlb" =
      "Sport None was not in list of supported sports or is unavailable on SportsRadar. Contact developer for additions" :=
  ⟨rfl, get_base_url_unknown_sport_fixed_message.2.2 {} "mlb" rfl⟩

/-- Claim C7 (counterexample): on the section 8 documented payload shape the
    season id sits under season.id, yet the schedule parser caches under the
    payload's top-level id, which is absent here, so the derived key is None
    and the season id is not a key of the resulting cache. -/
theorem schedule_key_is_not_season_id_on_section8_payload :
    pyGet scheduleExamplePayload "season" =
      .ok (jobj [("id", .str "2024-REG"), ("year", .num 2024)]) ∧
    pyGet (jobj [("id", .str "2024-REG"), ("year", .num 2024)]) "id" =
      .ok (.str "2024-REG") ∧
    SeasonSchedule.parse_football_schedule [] scheduleExamplePayload =
      .ok (scheduleExamplePayload, [(Json.null, scheduleExamplePayload)]) ∧
    cacheFind [(Json.null, scheduleExamplePayload)] (.str "2024-REG") = none := by
  exact ⟨rfl, rfl, rfl, by decide⟩

/-- Claim C7 (amended): the schedule parser derives its key from payload
    content, namely the top-level id field (never from request parameters),
    and performs read-through lookup and store in its cache under that key. -/
theorem schedule_key_from_top_level_id_read_through (c : Cache) (d k : Json)
    (hk : pyGet d "id" = .ok k) (hh : pyHashable k = true) :
    (∀ v, cacheFind c k = some v →
      SeasonSchedule.parse_football_schedule c d = .ok (v, c)) ∧
    (cacheFind c k = none →
      SeasonSchedule.parse_football_schedule c d = .ok (d, cacheInsert c k d)) :=
  ⟨fun _ hf => SeasonSchedule.parse_football_schedule_hit hk hh hf,
    fun hf => SeasonSchedule.parse_football_schedule_miss hk hh hf⟩

/-- Witness for schedule_key_from_top_level_id_read_through at a payload whose
    top-level id is present. -/
theorem schedule_key_from_top_level_id_read_through_witness :
    pyGet schedulePayloadWithId "id" = .ok (.str "sr-season-2024") ∧
    SeasonSchedule.parse_football_schedule [] schedulePayloadWithId =
      .ok (schedulePayloadWithId,
        [(Json.str "sr-season-2024", schedulePayloadWithId)]) :=
  ⟨rfl,
    (schedule_key_from_top_level_id_read_through [] schedulePayloadWithId
      (.str "sr-season-2024") rfl rfl).2 rfl⟩

/-- Claim C8: update_api_config writes exactly the provided fields and leaves
    omitted ones at their prior values; with language fr the updated config's
    NFL base URL carries fr as the language path segment, and the confirmation
    text ends with that freshly computed base URL. -/
theorem update_api_config_applies_provided_fields
    (cfg : SportRadarConfig) (l a f : Option String) :
    (update_api_config cfg (some "fr") none none).2 =
      { cfg with cur_lang := "fr" } ∧
    SportRadarConfig.get_base_url (update_api_config cfg (some "fr") none none).2 "nfl" =
      "https://api.sportradar.com/nfl/official/" ++ cfg.access_level ++ "/v7/fr" ∧
    (∃ p, (update_api_config cfg (some "fr") none none).1 =
      p ++ SportRadarConfig.get_base_url
        (update_api_config cfg (some "fr") none none).2 "nfl") ∧
    (update_api_config cfg none a f).2.cur_lang = cfg.cur_lang ∧
    (update_api_config cfg l none f).2.access_level = cfg.access_level ∧
    (update_api_config cfg l a none).2.format = cfg.format := by
  refine ⟨rfl, ?_, ⟨_, rfl⟩, update_keeps_cur_lang cfg a f,
    update_keeps_access_level cfg l f, update_keeps_format cfg l a⟩
  show (((("https://api.sportradar.com/nfl/official/" ++ cfg.access_level)
      ++ "/") ++ "v7") ++ "/") ++ "fr" =
    "https://api.sportradar.com/nfl/official/" ++ cfg.access_level ++ "/v7/fr"
  simp only [strAppend_assoc]
  rfl

/-- Claim C10 (counterexample): two different id-less payloads do not
    successively overwrite the None slot: the second parse hits the slot
    filled by the first payload and returns the first payload, storing
    nothing. -/
theorem idless_second_payload_not_stored :
    GameStats.parse_nfl_stats [] idlessPayloadA =
      .ok (idlessPayloadA, [(Json.null, idlessPayloadA)]) ∧
    GameStats.parse_nfl_stats [(Json.null, idlessPayloadA)] idlessPayloadB =
      .ok (idlessPayloadA, [(Json.null, idlessPayloadA)]) ∧
    idlessPayloadA ≠ idlessPayloadB :=
  ⟨rfl, rfl, by decide⟩

/-- Claim C10 (amended): payloads without a top-level id do not fail in the
    schedule, game-stats, team-stats and player-stats parsers: the key is the
    absent-key sentinel None and all four share the single None cache slot;
    the first id-less payload is stored there and returned, and every later
    id-less parse returns that stored first payload, leaving the slot
    unchanged (first wins; no overwriting). -/
theorem idless_payloads_share_null_slot (fs : JsonFields) (c : Cache)
    (h : fs.lookup "id" = none) :
    (cacheFind c .null = none →
      (SeasonSchedule.parse_football_schedule c (.obj fs) =
          .ok (.obj fs, cacheInsert c .null (.obj fs)) ∧
        GameStats.parse_nfl_stats c (.obj fs) =
          .ok (.obj fs, cacheInsert c .null (.obj fs)) ∧
        TeamStats.parse_nfl_stats c (.obj fs) =
          .ok (.obj fs, cacheInsert c .null (.obj fs)) ∧
        PlayerStats.parse_nfl_stats c (.obj fs) =
          .ok (.obj fs, cacheInsert c .null (.obj fs)))) ∧
    (∀ v, cacheFind c .null = some v →
      (SeasonSchedule.parse_football_schedule c (.obj fs) = .ok (v, c) ∧
        GameStats.parse_nfl_stats c (.obj fs) = .ok (v, c) ∧
        TeamStats.parse_nfl_stats c (.obj fs) = .ok (v, c) ∧
        PlayerStats.parse_nfl_stats c (.obj fs) = .ok (v, c))) := by
  have hk : pyGet (.obj fs) "id" = .ok .null := by simp [pyGet, h]
  constructor
  · intro hf
    have hm := SeasonSchedule.parse_football_schedule_miss hk rfl hf
    exact ⟨hm, hm, hm, hm⟩
  · intro v hf
    have hm := SeasonSchedule.parse_football_schedule_hit hk rfl hf
    exact ⟨hm, hm, hm, hm⟩

/-- Witness for idless_payloads_share_null_slot at idlessPayloadA with the
    empty cache. -/
theorem idless_payloads_share_null_slot_witness :
    JsonFields.lookup (JsonFields.ofList [("a", Json.num 1)]) "id" = none ∧
    GameStats.parse_nfl_stats [] idlessPayloadA =
      .ok (idlessPayloadA, [(Json.null, idlessPayloadA)]) :=
  ⟨rfl,
    ((idless_payloads_share_null_slot (JsonFields.ofList [("a", Json.num 1)])
      [] rfl).1 rfl).2.1⟩
